import Mathlib

/-!
Verification of the Story Aggregation & Merge Engine of the `talk` server
(`src/core/server/services/stories/index.ts` and the comment-count helpers).
The data model and the operations are embedded shallowly: the MongoDB
document store becomes an explicit `Store` value threaded through the
operations, thrown errors become the `Except.error` branch (carrying the
store as it was at the moment of the throw), and `Date` values become
integer epoch-milliseconds.
-/

namespace Talk

/-- Enumeration `GQLSTORY_MODE` from the generated GraphQL schema types. -/
inductive GQLSTORY_MODE where
  | COMMENTS
  | QA
  | RATINGS_AND_REVIEWS
deriving DecidableEq, Repr

/-- Per-status comment counts (`CommentStatusCounts`): one counter for every
enumerated comment status, mirroring `createEmptyCommentStatusCounts`. -/
structure CommentStatusCounts where
  APPROVED : Nat
  NONE : Nat
  PREMOD : Nat
  REJECTED : Nat
  SYSTEM_WITHHELD : Nat
deriving DecidableEq, Repr

/-- Per-queue moderation counts (`CommentModerationCountsPerQueue`). -/
structure CommentModerationCountsPerQueue where
  unmoderated : Nat
  reported : Nat
  pending : Nat
deriving DecidableEq, Repr

/-- Moderation-queue counts (`CommentModerationQueueCounts`): a running total
plus the per-queue breakdown. -/
structure CommentModerationQueueCounts where
  total : Nat
  queues : CommentModerationCountsPerQueue
deriving DecidableEq, Repr

/-- Sparse per-action-type counts (`CommentActionCounts`): a map from
action-type key to count, absent keys implying zero; embedded as a total
function with zero as the default. -/
def CommentActionCounts : Type := String → Nat

/-- Builds `CommentActionCounts` from an association list, every key not
listed implying zero; used to write down concrete count maps. -/
def actionCountsOf (l : List (String × Nat)) : CommentActionCounts :=
  fun k => ((l.filter (fun p => p.1 == k)).map (fun p => p.2)).sum

/-- Mirrors `createEmptyCommentModerationCountsPerQueue`. -/
def createEmptyCommentModerationCountsPerQueue : CommentModerationCountsPerQueue :=
  { unmoderated := 0
    reported := 0
    pending := 0 }

/-- Mirrors `createEmptyCommentModerationQueueCounts`. -/
def createEmptyCommentModerationQueueCounts : CommentModerationQueueCounts :=
  { total := 0
    queues := createEmptyCommentModerationCountsPerQueue }

/-- Mirrors `createEmptyCommentStatusCounts`. -/
def createEmptyCommentStatusCounts : CommentStatusCounts :=
  { APPROVED := 0
    NONE := 0
    PREMOD := 0
    REJECTED := 0
    SYSTEM_WITHHELD := 0 }

/-- The embedded `commentCounts` structure of a story (`RelatedCommentCounts`). -/
structure RelatedCommentCounts where
  action : CommentActionCounts
  status : CommentStatusCounts
  moderationQueue : CommentModerationQueueCounts

/-- Mirrors `createEmptyRelatedCommentCounts`. -/
def createEmptyRelatedCommentCounts : RelatedCommentCounts :=
  { action := fun _ => 0
    status := createEmptyCommentStatusCounts
    moderationQueue := createEmptyCommentModerationQueueCounts }

/-- Coordinate-wise sum of two status-count structures. -/
def addCommentStatusCounts (a b : CommentStatusCounts) : CommentStatusCounts :=
  { APPROVED := a.APPROVED + b.APPROVED
    NONE := a.NONE + b.NONE
    PREMOD := a.PREMOD + b.PREMOD
    REJECTED := a.REJECTED + b.REJECTED
    SYSTEM_WITHHELD := a.SYSTEM_WITHHELD + b.SYSTEM_WITHHELD }

/-- Modelled from the spec: `mergeCommentStatusCount` lives in
`coral-server/models/comment`, which is not part of the excerpt; per §4.1 it
is the variadic, order-independent coordinate-wise sum over the union of
keys across all inputs, missing keys treated as zero. -/
def mergeCommentStatusCount (counts : List CommentStatusCounts) : CommentStatusCounts :=
  counts.foldl addCommentStatusCounts createEmptyCommentStatusCounts

/-- Coordinate-wise sum of two moderation-queue count structures. -/
def addCommentModerationQueueCounts (a b : CommentModerationQueueCounts) :
    CommentModerationQueueCounts :=
  { total := a.total + b.total
    queues :=
      { unmoderated := a.queues.unmoderated + b.queues.unmoderated
        reported := a.queues.reported + b.queues.reported
        pending := a.queues.pending + b.queues.pending } }

/-- Modelled from the spec: `mergeCommentModerationQueueCount` lives in
`coral-server/models/comment`, not part of the excerpt; per §4.1 it is the
variadic coordinate-wise sum of moderation-queue counts. -/
def mergeCommentModerationQueueCount (counts : List CommentModerationQueueCounts) :
    CommentModerationQueueCounts :=
  counts.foldl addCommentModerationQueueCounts createEmptyCommentModerationQueueCounts

/-- Coordinate-wise sum of two sparse action-count maps. -/
def addCommentActionCounts (a b : CommentActionCounts) : CommentActionCounts :=
  fun k => a k + b k

/-- Modelled from the spec: `mergeCommentActionCounts` lives in
`coral-server/models/action/comment`, not part of the excerpt; per §4.1 it is
the variadic coordinate-wise sum over the union of action-type keys, with
keys missing from any input treated as zero. -/
def mergeCommentActionCounts (counts : List CommentActionCounts) : CommentActionCounts :=
  counts.foldl addCommentActionCounts (fun _ => 0)

/-- Modelled from the spec: `calculateTotalCommentCount` lives in
`coral-server/models/comment`, not part of the excerpt; per §4.1/§8 it is the
sum across all five enumerated status keys. -/
def calculateTotalCommentCount (statusCounts : CommentStatusCounts) : Nat :=
  statusCounts.APPROVED + statusCounts.NONE + statusCounts.PREMOD +
    statusCounts.REJECTED + statusCounts.SYSTEM_WITHHELD

/-- Tenant-level live-update configuration (`LiveConfiguration`): the
organization-wide `live.enabled` flag. -/
structure LiveConfiguration where
  enabled : Bool
deriving DecidableEq, Repr

/-- Story-level live-update settings, a `Partial<LiveConfiguration>`: the
`enabled` flag may be absent, in which case the tenant flag applies. -/
structure PartialLiveConfiguration where
  enabled : Option Bool
deriving DecidableEq, Repr

/-- The story settings consumed here: the operating mode (absent meaning
no story-level mode) and the optional live-settings override. -/
structure StorySettings where
  mode : Option GQLSTORY_MODE
  live : Option PartialLiveConfiguration
deriving DecidableEq, Repr

/-- A story record, keyed by `(tenantID, storyID)`, with the fields the
covered operations consume; `Date` fields are epoch-milliseconds. -/
structure Story where
  id : String
  tenantID : String
  url : String
  siteID : String
  settings : StorySettings
  commentCounts : RelatedCommentCounts
  createdAt : Int
  lastCommentedAt : Option Int

/-- A comment record: external entity carrying a `storyID` foreign key that
the merge engine reparents. -/
structure Comment where
  id : String
  storyID : String
deriving DecidableEq, Repr

/-- A comment-action record: external entity also carrying a `storyID`
foreign key that the merge engine reparents. -/
structure CommentAction where
  id : String
  storyID : String
deriving DecidableEq, Repr

/-- The tenant context attached by upstream middleware, restricted to the
fields the covered operations consume. -/
structure Tenant where
  id : String
  domain : String
  live : LiveConfiguration
  defaultStoryMode : Option GQLSTORY_MODE
deriving DecidableEq, Repr

/-- The server configuration keys the live-eligibility resolver reads. -/
structure Config where
  disable_live_updates : Bool
  disable_live_updates_timeout : Int
deriving DecidableEq, Repr

/-- The per-tenant slice of the document store: the story, comment and
comment-action collections that the covered operations read and mutate. -/
structure Store where
  stories : List Story
  comments : List Comment
  commentActions : List CommentAction

/-- Modelled from the spec: `retrieveStory` lives in
`coral-server/models/story`, not part of the excerpt; per §4.2 it is a
tenant-scoped find by story id. -/
def retrieveStory (store : Store) (id : String) : Option Story :=
  store.stories.find? (fun s => s.id == id)

/-- Modelled from the spec: `retrieveManyStories` lives in
`coral-server/models/story`, not part of the excerpt; per §4.4 it fetches
all referenced stories in one batch, one (possibly missing) result per
requested id, in request order. -/
def retrieveManyStories (store : Store) (ids : List String) : List (Option Story) :=
  ids.map (retrieveStory store)

/-- Turns a list of optional values into an optional list, mirroring the
`isNonNullArray` guard: `some` exactly when every element is present. -/
def sequenceOptions {α : Type} : List (Option α) → Option (List α)
  | [] => some []
  | none :: _ => none
  | some a :: rest => (sequenceOptions rest).map (fun l => a :: l)

/-- Modelled from the spec: `resolveStoryMode` lives in
`coral-server/models/story`, not part of the excerpt; per §4.4 mode
resolution may depend on tenant settings as well as the story's own
settings: the story's explicit mode wins, otherwise the tenant default,
otherwise comments mode. -/
def resolveStoryMode (settings : StorySettings) (tenant : Tenant) : GQLSTORY_MODE :=
  settings.mode.getD (tenant.defaultStoryMode.getD GQLSTORY_MODE.COMMENTS)

/-- Modelled from the spec: `mergeManyCommentStories` lives in
`coral-server/models/comment`, not part of the excerpt; per §4.4 step 1 it
reassigns all comments whose `storyID` is any source id to the destination
id, returning the modified-row count. -/
def mergeManyCommentStories (store : Store) (destinationID : String)
    (sourceIDs : List String) : Nat × Store :=
  ((store.comments.filter (fun c => sourceIDs.contains c.storyID)).length,
    { store with
        comments := store.comments.map (fun c =>
          if sourceIDs.contains c.storyID then { c with storyID := destinationID } else c) })

/-- Modelled from the spec: `mergeManyStoryActions` lives in
`coral-server/models/action/comment`, not part of the excerpt; per §4.4
step 2 it reassigns all actions referencing a source story to the
destination id, returning the modified-row count. -/
def mergeManyStoryActions (store : Store) (destinationID : String)
    (sourceIDs : List String) : Nat × Store :=
  ((store.commentActions.filter (fun a => sourceIDs.contains a.storyID)).length,
    { store with
        commentActions := store.commentActions.map (fun a =>
          if sourceIDs.contains a.storyID then { a with storyID := destinationID } else a) })

/-- Modelled from the spec: `updateStoryCounts` lives in
`coral-server/models/story`, not part of the excerpt; per §4.2 it replaces
the embedded counts of one story with a supplied already-merged value and
returns the post-update record, or `none` when the record vanished. -/
def updateStoryCounts (store : Store) (id : String) (counts : RelatedCommentCounts) :
    Option (Story × Store) :=
  match retrieveStory store id with
  | none => none
  | some s =>
    some ({ s with commentCounts := counts },
      { store with
          stories := store.stories.map (fun t =>
            if t.id == id then { t with commentCounts := counts } else t) })

/-- Modelled from the spec: `removeStory` lives in
`coral-server/models/story`, not part of the excerpt; per §4.2 it deletes
one story document, returning the removed record or `none` when it was
already gone. -/
def removeStory (store : Store) (id : String) : Option (Story × Store) :=
  match retrieveStory store id with
  | none => none
  | some s =>
    some (s, { store with stories := store.stories.filter (fun t => !(t.id == id)) })

/-- Modelled from the spec: `removeStories` lives in
`coral-server/models/story`, not part of the excerpt; per §4.2/§4.4 step 5
it deletes every story whose id is listed, returning the deleted-count. -/
def removeStories (store : Store) (ids : List String) : Nat × Store :=
  ((store.stories.filter (fun s => ids.contains s.id)).length,
    { store with stories := store.stories.filter (fun s => !(ids.contains s.id)) })

/-- Modelled from the spec: `removeStoryComments` lives in
`coral-server/models/comment`, not part of the excerpt; per §4.2 it deletes
every comment of the story, returning the deleted-count. -/
def removeStoryComments (store : Store) (storyID : String) : Nat × Store :=
  ((store.comments.filter (fun c => c.storyID == storyID)).length,
    { store with comments := store.comments.filter (fun c => !(c.storyID == storyID)) })

/-- Modelled from the spec: `removeStoryActions` lives in
`coral-server/models/action/comment`, not part of the excerpt; per §4.2 it
deletes every comment-action of the story, returning the deleted-count. -/
def removeStoryActions (store : Store) (storyID : String) : Nat × Store :=
  ((store.commentActions.filter (fun a => a.storyID == storyID)).length,
    { store with commentActions := store.commentActions.filter (fun a => !(a.storyID == storyID)) })

/-- Distinct reasons for which `merge` throws, one per `throw new Error`
site in the source (spec §7 groups them as `MergeValidationFailed`
sub-reasons). -/
inductive MergeError where
  | duplicateIDs
  | missingStories
  | differentSites
  | notCommentsMode
deriving DecidableEq, Repr

/-- Embeds `merge` from `services/stories/index.ts`: validates the request
(non-duplicate ids, all stories present, one site, all comments-mode), then
reparents comments and actions onto the destination, replaces the
destination's counts with the aggregate of the source stories' counts, and
deletes the source stories. A thrown error becomes `Except.error` carrying
the store as it stood at the throw; the success branch carries the final
store and the (possibly null) destination story. -/
def merge (tenant : Tenant) (store : Store) (destinationID : String)
    (sourceIDs : List String) : Except (MergeError × Store) (Option Story × Store) :=
  if sourceIDs.length = 0 then
    Except.ok (none, store)
  else
    let storyIDs := destinationID :: sourceIDs
    if storyIDs.dedup.length ≠ storyIDs.length then
      Except.error (MergeError.duplicateIDs, store)
    else
      match sequenceOptions (retrieveManyStories store storyIDs) with
      | none => Except.error (MergeError.missingStories, store)
      | some stories =>
        if (stories.map (fun s => s.siteID)).dedup.length > 1 then
          Except.error (MergeError.differentSites, store)
        else if stories.any (fun s => !(resolveStoryMode s.settings tenant == GQLSTORY_MODE.COMMENTS)) then
          Except.error (MergeError.notCommentsMode, store)
        else
          let (_updatedComments, store₁) := mergeManyCommentStories store destinationID sourceIDs
          let (_updatedActions, store₂) := mergeManyStoryActions store₁ destinationID sourceIDs
          let sourceStories := stories.tail
          let commentCounts : RelatedCommentCounts :=
            { status := mergeCommentStatusCount (sourceStories.map (fun s => s.commentCounts.status))
              moderationQueue :=
                mergeCommentModerationQueueCount
                  (sourceStories.map (fun s => s.commentCounts.moderationQueue))
              action := mergeCommentActionCounts (sourceStories.map (fun s => s.commentCounts.action)) }
          match updateStoryCounts store₂ destinationID commentCounts with
          | none => Except.ok (none, store₂)
          | some (destinationStory, store₃) =>
            let (_deletedCount, store₄) := removeStories store₃ sourceIDs
            Except.ok (some destinationStory, store₄)

/-- The error thrown by `remove` when the story still has linked comments
and no consent flag was given (spec §7 names it `HasLinkedComments`). -/
inductive RemoveError where
  | hasLinkedComments
deriving DecidableEq, Repr

/-- One audited deletion step of the `remove` cascade, recorded in the
order the embedded operation performs them. -/
inductive RemoveStep where
  | removedActions
  | removedComments
  | removedStory
deriving DecidableEq, Repr

/-- Final stage of `remove`: deletes the story document itself, returning
null when it was already gone, and appends the story-deletion step to the
audit trace. -/
def removeFinish (store : Store) (storyID : String) (steps : List RemoveStep) :
    Option Story × Store × List RemoveStep :=
  match removeStory store storyID with
  | none => (none, store, steps)
  | some (removedStory, store') => (some removedStory, store', steps ++ [RemoveStep.removedStory])

/-- Embeds `remove` from `services/stories/index.ts`: retrieves the story
(returning null when absent), cascades the deletion of actions then
comments when `includeComments` is set, otherwise refuses when the total
comment count is positive, and finally deletes the story record. The third
component of the successful result is the audit trace of deletion steps in
execution order. -/
def remove (store : Store) (storyID : String) (includeComments : Bool) :
    Except (RemoveError × Store) (Option Story × Store × List RemoveStep) :=
  match retrieveStory store storyID with
  | none => Except.ok (none, store, [])
  | some story =>
    if includeComments then
      let (_removedActions, store₁) := removeStoryActions store story.id
      let (_removedComments, store₂) := removeStoryComments store₁ story.id
      Except.ok (removeFinish store₂ story.id [RemoveStep.removedActions, RemoveStep.removedComments])
    else if calculateTotalCommentCount story.commentCounts.status > 0 then
      Except.error (RemoveError.hasLinkedComments, store)
    else
      Except.ok (removeFinish store story.id [])

/-- The polymorphic input of `isLiveEnabled` (`Story | LiveConfiguration`),
embedded as the tagged variant the `sourceIsStory` type guard computes. -/
inductive LiveEnabledSource where
  | story (story : Story)
  | settings (settings : PartialLiveConfiguration)

/-- Embeds `isLiveEnabled` from `services/stories/index.ts`: false when the
global `disable_live_updates` flag is set; for a story input with a positive
`disable_live_updates_timeout`, false when the last activity
(`lastCommentedAt` falling back to `createdAt`) plus the timeout is not
after `now`; otherwise the story-level or settings-level `enabled` value,
defaulting to the tenant's `live.enabled` flag. -/
def isLiveEnabled (config : Config) (tenant : Tenant) (source : LiveEnabledSource)
    (now : Int) : Bool :=
  if config.disable_live_updates then
    false
  else
    match source with
    | LiveEnabledSource.story story =>
      let timeout := config.disable_live_updates_timeout
      let timedOut : Bool :=
        if timeout > 0 then
          let lastCommentedAt := story.lastCommentedAt.getD story.createdAt
          decide (lastCommentedAt + timeout ≤ now)
        else
          false
      if timedOut then
        false
      else
        match story.settings.live with
        | none => tenant.live.enabled
        | some live => live.enabled.getD tenant.live.enabled
    | LiveEnabledSource.settings settings => settings.enabled.getD tenant.live.enabled

/-! Concrete fixtures used to instantiate the theorems below. -/

/-- A tenant with live updates enabled organization-wide and no default
story mode. -/
def tenant₀ : Tenant :=
  { id := "tenant-1"
    domain := "example.com"
    live := { enabled := true }
    defaultStoryMode := none }

/-- A configuration with the global live-updates kill switch set. -/
def configDisabled : Config :=
  { disable_live_updates := true
    disable_live_updates_timeout := 0 }

/-- A configuration with live updates globally allowed and a five-unit
dormancy timeout. -/
def configTimeout : Config :=
  { disable_live_updates := false
    disable_live_updates_timeout := 5 }

/-- Status counts with the given approved count and every other status at
zero. -/
def statusApproved (n : Nat) : CommentStatusCounts :=
  { createEmptyCommentStatusCounts with APPROVED := n }

/-- A baseline story on site `site-1` with empty counts. -/
def baseStory : Story :=
  { id := "d"
    tenantID := "tenant-1"
    url := "https://example.com/a"
    siteID := "site-1"
    settings := { mode := none, live := none }
    commentCounts := createEmptyRelatedCommentCounts
    createdAt := 0
    lastCommentedAt := none }

/-- The merge-scenario destination story: two approved comments of its own,
which the merge is expected to discard. -/
def storyD : Story :=
  { baseStory with
      id := "d"
      commentCounts := { createEmptyRelatedCommentCounts with status := statusApproved 2 } }

/-- The first merge-scenario source story, with three approved comments. -/
def storyS1 : Story :=
  { baseStory with
      id := "s1"
      commentCounts := { createEmptyRelatedCommentCounts with status := statusApproved 3 } }

/-- The second merge-scenario source story, with one approved comment. -/
def storyS2 : Story :=
  { baseStory with
      id := "s2"
      commentCounts := { createEmptyRelatedCommentCounts with status := statusApproved 1 } }

/-- A store with no records at all. -/
def emptyStore : Store :=
  { stories := [], comments := [], commentActions := [] }

/-- The merge-scenario store: destination `d`, sources `s1` and `s2`, with
one comment and one action on each source. -/
def storeMerge : Store :=
  { stories := [storyD, storyS1, storyS2]
    comments := [{ id := "c1", storyID := "s1" }, { id := "c2", storyID := "s2" }]
    commentActions := [{ id := "a1", storyID := "s1" }, { id := "a2", storyID := "s2" }] }

/-- A store holding only the destination story `d` together with a comment
and an action linked to it. -/
def storeRemove : Store :=
  { stories := [storyD]
    comments := [{ id := "c1", storyID := "d" }]
    commentActions := [{ id := "a1", storyID := "d" }] }

end Talk

namespace Talk

/-- C7: for every input (story or bare live-settings object), tenant and
`now` instant, `isLiveEnabled` returns false whenever the tenant-wide
`disable_live_updates` config flag is set, regardless of any story-level or
settings-level override. -/
theorem isLiveEnabled_false_of_global_disable (config : Config) (tenant : Tenant)
    (source : LiveEnabledSource) (now : Int)
    (h : config.disable_live_updates = true) :
    isLiveEnabled config tenant source now = false := by
  simp [isLiveEnabled, h]

/-- Witness for C7 at a concrete input whose settings-level override asks
for live updates. -/
theorem isLiveEnabled_false_of_global_disable_witness :
    configDisabled.disable_live_updates = true ∧
      isLiveEnabled configDisabled tenant₀
        (LiveEnabledSource.settings { enabled := some true }) 0 = false :=
  ⟨rfl,
    isLiveEnabled_false_of_global_disable configDisabled tenant₀
      (LiveEnabledSource.settings { enabled := some true }) 0 rfl⟩

/-- C6: for every story and configuration with a positive
`disable_live_updates_timeout`, `isLiveEnabled` returns false whenever
`lastActivity + timeout ≤ now`, where `lastActivity` is the story's
`lastCommentedAt` falling back to its `createdAt`, even when the story's
own `live.enabled` setting is true. -/
theorem isLiveEnabled_false_of_timeout (config : Config) (tenant : Tenant)
    (story : Story) (now : Int)
    (hpos : 0 < config.disable_live_updates_timeout)
    (hdormant : story.lastCommentedAt.getD story.createdAt +
      config.disable_live_updates_timeout ≤ now) :
    isLiveEnabled config tenant (LiveEnabledSource.story story) now = false := by
  simp only [isLiveEnabled]
  split
  · rfl
  · simp [hpos, hdormant]

/-- Witness for C6: a story whose own live setting is enabled, last
commented at 10, timeout 5, evaluated at now = 15. -/
theorem isLiveEnabled_false_of_timeout_witness :
    0 < configTimeout.disable_live_updates_timeout ∧
      ((({ baseStory with
            lastCommentedAt := some 10
            settings := { mode := none, live := some { enabled := some true } } } :
          Story).lastCommentedAt.getD baseStory.createdAt) +
        configTimeout.disable_live_updates_timeout ≤ 15) ∧
      isLiveEnabled configTimeout tenant₀
        (LiveEnabledSource.story
          { baseStory with
              lastCommentedAt := some 10
              settings := { mode := none, live := some { enabled := some true } } }) 15 = false :=
  ⟨by decide, by decide,
    isLiveEnabled_false_of_timeout configTimeout tenant₀
      { baseStory with
          lastCommentedAt := some 10
          settings := { mode := none, live := some { enabled := some true } } } 15
      (by decide) (by decide)⟩

/-- Counterexample to C2 as stated: merging the destination `dest` with an
empty source list does not fail with a `MergeValidationFailed` error — the
operation returns null (`Except.ok` with no story) and the store is exactly
the input store (no mutation). The warning is only logged. -/
theorem merge_empty_sources_counterexample :
    merge tenant₀ emptyStore "dest" [] = Except.ok (none, emptyStore) := by
  rfl

/-- C2 (amended): for every tenant, store and destination id, merging with
an empty source-id list returns null without raising an error, and no
story, comment, or action record is mutated (the store is returned
unchanged). -/
theorem merge_empty_sources_returns_null (tenant : Tenant) (store : Store)
    (destinationID : String) :
    merge tenant store destinationID [] = Except.ok (none, store) := by
  rfl

/-- C10: for every store, story id not present in the store, and
`includeComments` flag, the lifecycle `remove` returns null without raising
an error and without mutating any record. -/
theorem remove_missing_story_returns_null (store : Store) (storyID : String)
    (includeComments : Bool)
    (h : retrieveStory store storyID = none) :
    remove store storyID includeComments = Except.ok (none, store, []) := by
  simp [remove, h]

/-- Witness for C10: removing an id from the empty store. -/
theorem remove_missing_story_returns_null_witness :
    retrieveStory emptyStore "nope" = none ∧
      remove emptyStore "nope" true = Except.ok (none, emptyStore, []) :=
  ⟨rfl, remove_missing_story_returns_null emptyStore "nope" true rfl⟩

/-- C5: for every store and story present in it whose status counts sum to
a positive total, `remove` with `includeComments = false` fails with the
`HasLinkedComments` error and leaves the store — the story record and its
comments — unchanged. -/
theorem remove_with_comments_refused (store : Store) (storyID : String) (story : Story)
    (h : retrieveStory store storyID = some story)
    (hc : 0 < calculateTotalCommentCount story.commentCounts.status) :
    remove store storyID false = Except.error (RemoveError.hasLinkedComments, store) := by
  simp [remove, h, hc]

/-- Witness for C5: story `d` has two approved comments, so consent-free
removal is refused and the store is untouched. -/
theorem remove_with_comments_refused_witness :
    retrieveStory storeRemove "d" = some storyD ∧
      0 < calculateTotalCommentCount storyD.commentCounts.status ∧
      remove storeRemove "d" false =
        Except.error (RemoveError.hasLinkedComments, storeRemove) :=
  ⟨rfl, by decide, remove_with_comments_refused storeRemove "d" storyD rfl (by decide)⟩

/-- C9: for count structures of each of the three kinds, the variadic merge
is associative (in both its nested and flattened forms) and commutative,
because it is coordinate-wise summation over the union of keys with missing
keys treated as zero. -/
theorem mergeCounts_assoc_comm
    (sa sb sc : CommentStatusCounts)
    (qa qb qc : CommentModerationQueueCounts)
    (aa ab ac : CommentActionCounts) :
    (mergeCommentStatusCount [sa, mergeCommentStatusCount [sb, sc]] =
        mergeCommentStatusCount [mergeCommentStatusCount [sa, sb], sc] ∧
      mergeCommentStatusCount [mergeCommentStatusCount [sa, sb], sc] =
        mergeCommentStatusCount [sa, sb, sc] ∧
      mergeCommentStatusCount [sa, sb] = mergeCommentStatusCount [sb, sa]) ∧
    (mergeCommentModerationQueueCount [qa, mergeCommentModerationQueueCount [qb, qc]] =
        mergeCommentModerationQueueCount [mergeCommentModerationQueueCount [qa, qb], qc] ∧
      mergeCommentModerationQueueCount [mergeCommentModerationQueueCount [qa, qb], qc] =
        mergeCommentModerationQueueCount [qa, qb, qc] ∧
      mergeCommentModerationQueueCount [qa, qb] = mergeCommentModerationQueueCount [qb, qa]) ∧
    (mergeCommentActionCounts [aa, mergeCommentActionCounts [ab, ac]] =
        mergeCommentActionCounts [mergeCommentActionCounts [aa, ab], ac] ∧
      mergeCommentActionCounts [mergeCommentActionCounts [aa, ab], ac] =
        mergeCommentActionCounts [aa, ab, ac] ∧
      mergeCommentActionCounts [aa, ab] = mergeCommentActionCounts [ab, aa]) := by
  obtain ⟨sa1, sa2, sa3, sa4, sa5⟩ := sa
  obtain ⟨sb1, sb2, sb3, sb4, sb5⟩ := sb
  obtain ⟨sc1, sc2, sc3, sc4, sc5⟩ := sc
  obtain ⟨qat, qau, qar, qap⟩ := qa
  obtain ⟨qbt, qbu, qbr, qbp⟩ := qb
  obtain ⟨qct, qcu, qcr, qcp⟩ := qc
  refine ⟨⟨?_, ?_, ?_⟩, ⟨?_, ?_, ?_⟩, ⟨?_, ?_, ?_⟩⟩ <;>
    first
      | (simp only [mergeCommentStatusCount, addCommentStatusCounts,
          createEmptyCommentStatusCounts, List.foldl_cons, List.foldl_nil,
          CommentStatusCounts.mk.injEq]
         omega)
      | (simp only [mergeCommentModerationQueueCount, addCommentModerationQueueCounts,
          createEmptyCommentModerationQueueCounts, createEmptyCommentModerationCountsPerQueue,
          List.foldl_cons, List.foldl_nil, CommentModerationQueueCounts.mk.injEq,
          CommentModerationCountsPerQueue.mk.injEq]
         omega)
      | (funext k
         simp only [mergeCommentActionCounts, addCommentActionCounts,
           List.foldl_cons, List.foldl_nil]
         omega)

/-- Helper: a list with duplicates has strictly fewer elements after
deduplication, so the length comparison the merge validation performs
detects the duplicate. -/
theorem dedup_length_ne_of_not_nodup {α : Type} [DecidableEq α] {l : List α}
    (h : ¬ l.Nodup) : l.dedup.length ≠ l.length := by
  intro he
  exact h (List.dedup_eq_self.mp ((List.dedup_sublist l).eq_of_length he))

/-- C4: for every merge invocation in which the combined id set
(destination plus sources) contains a duplicate — in particular when the
destination id appears in the source list — the merge fails with the
duplicate-id error and the store is returned unchanged (no record is
mutated). -/
theorem merge_duplicate_ids (tenant : Tenant) (store : Store) (destinationID : String)
    (sourceIDs : List String)
    (hdup : ¬ (destinationID :: sourceIDs).Nodup) :
    merge tenant store destinationID sourceIDs =
      Except.error (MergeError.duplicateIDs, store) := by
  cases sourceIDs with
  | nil => exact absurd (List.nodup_singleton destinationID) hdup
  | cons a l =>
    have hlen := dedup_length_ne_of_not_nodup hdup
    simp only [merge]
    rw [if_neg (by simp), if_pos hlen]

/-- Witness for C4: the destination id `a` also appears in the source
list. -/
theorem merge_duplicate_ids_witness :
    ¬ (["a", "a"] : List String).Nodup ∧
      merge tenant₀ emptyStore "a" ["a"] =
        Except.error (MergeError.duplicateIDs, emptyStore) :=
  ⟨by decide, merge_duplicate_ids tenant₀ emptyStore "a" ["a"] (by decide)⟩

/-- C3: for every merge invocation whose earlier checks pass but where a
referenced story is missing from the batch fetch, or the referenced
stories do not all share the same `siteID`, or some referenced story does
not resolve to comments mode, the operation raises an error and the store
is returned exactly as it was — no comment or action is reassigned and no
story record is updated or deleted. -/
theorem merge_validation_fails_before_mutation
    (tenant : Tenant) (store : Store) (destinationID : String) (sourceIDs : List String)
    (hne : sourceIDs ≠ [])
    (hnodup : (destinationID :: sourceIDs).Nodup)
    (hfail :
      sequenceOptions (retrieveManyStories store (destinationID :: sourceIDs)) = none ∨
        ∃ stories,
          sequenceOptions (retrieveManyStories store (destinationID :: sourceIDs)) =
              some stories ∧
            (1 < (stories.map (fun s => s.siteID)).dedup.length ∨
              stories.any
                (fun s => !(resolveStoryMode s.settings tenant == GQLSTORY_MODE.COMMENTS)) =
                true)) :
    ∃ e, merge tenant store destinationID sourceIDs = Except.error (e, store) := by
  have hlen0 : ¬ sourceIDs.length = 0 := fun h0 => hne (List.length_eq_zero.mp h0)
  have hdedup :
      ¬ (destinationID :: sourceIDs).dedup.length ≠ (destinationID :: sourceIDs).length := by
    rw [List.dedup_eq_self.mpr hnodup]
    exact fun h => h rfl
  rcases hfail with hnone | ⟨stories, hsome, hbad⟩
  · refine ⟨MergeError.missingStories, ?_⟩
    simp only [merge]
    rw [if_neg hlen0, if_neg hdedup]
    simp only [hnone]
  · by_cases hsite : 1 < (stories.map (fun s => s.siteID)).dedup.length
    · refine ⟨MergeError.differentSites, ?_⟩
      simp only [merge]
      rw [if_neg hlen0, if_neg hdedup]
      simp only [hsome]
      rw [if_pos hsite]
    · rcases hbad with hbad | hmode
      · exact absurd hbad hsite
      · refine ⟨MergeError.notCommentsMode, ?_⟩
        simp only [merge]
        rw [if_neg hlen0, if_neg hdedup]
        simp only [hsome]
        rw [if_neg hsite, if_pos hmode]

/-- Witness for C3: the batch fetch misses source id `ghost`, so the merge
errors with the merge-scenario store untouched. -/
theorem merge_validation_fails_before_mutation_witness :
    (["s1", "ghost"] : List String) ≠ [] ∧
      (["d", "s1", "ghost"] : List String).Nodup ∧
      sequenceOptions (retrieveManyStories storeMerge ["d", "s1", "ghost"]) = none ∧
      ∃ e, merge tenant₀ storeMerge "d" ["s1", "ghost"] = Except.error (e, storeMerge) :=
  ⟨by decide, by decide, rfl,
    merge_validation_fails_before_mutation tenant₀ storeMerge "d" ["s1", "ghost"]
      (by decide) (by decide) (Or.inl rfl)⟩

/-- C8: for every story present in the store, `remove` with
`includeComments = true` performs the cascading deletes in the order: story
actions first, then story comments, then the story record itself, and
returns the removed story. -/
theorem remove_cascade_order (store : Store) (storyID : String) (story : Story)
    (h : retrieveStory store storyID = some story) :
    ∃ store', remove store storyID true =
      Except.ok (some story, store',
        [RemoveStep.removedActions, RemoveStep.removedComments, RemoveStep.removedStory]) := by
  have hfind : store.stories.find? (fun s => s.id == storyID) = some story := by
    simpa [retrieveStory] using h
  have hp := List.find?_some hfind
  have hid : story.id = storyID := eq_of_beq (by simpa using hp)
  subst hid
  have hret : ∀ c a,
      retrieveStory { stories := store.stories, comments := c, commentActions := a }
        story.id = some story :=
    fun _ _ => h
  unfold remove
  rw [h]
  simp only [if_true, removeStoryActions, removeStoryComments, removeFinish, removeStory]
  rw [hret]
  exact ⟨_, rfl⟩

/-- Witness for C8: removing story `d` with consent from the store holding
its comment and action produces the three audited steps in order. -/
theorem remove_cascade_order_witness :
    retrieveStory storeRemove "d" = some storyD ∧
      ∃ store', remove storeRemove "d" true =
        Except.ok (some storyD, store',
          [RemoveStep.removedActions, RemoveStep.removedComments, RemoveStep.removedStory]) :=
  ⟨rfl, remove_cascade_order storeRemove "d" storyD rfl⟩

/-- Helper: reassigning comments and actions onto the destination touches
only the comment and action collections, so story retrieval afterwards
agrees with retrieval from the original store. -/
theorem retrieveStory_after_reassign (store : Store) (destinationID : String)
    (sourceIDs : List String) (id : String) :
    retrieveStory
      ((mergeManyStoryActions ((mergeManyCommentStories store destinationID sourceIDs).2)
        destinationID sourceIDs).2) id = retrieveStory store id := rfl

/-- C1: for every merge whose validations pass (so the merge succeeds), the
destination story is updated so that its resulting `commentCounts` — the
status, moderation-queue and action components — equal the coordinate-wise
sum of the source stories' counts only: the destination's own pre-merge
counts are replaced by the aggregate of the sources' counts, not summed
with its prior counts. -/
theorem merge_replaces_destination_counts
    (tenant : Tenant) (store : Store) (destinationID : String) (sourceIDs : List String)
    (destStory : Story) (sourceStories : List Story)
    (hne : sourceIDs ≠ [])
    (hnodup : (destinationID :: sourceIDs).Nodup)
    (hfetch : sequenceOptions (retrieveManyStories store (destinationID :: sourceIDs)) =
      some (destStory :: sourceStories))
    (hsite : ¬ 1 < ((destStory :: sourceStories).map (fun s => s.siteID)).dedup.length)
    (hmode : ((destStory :: sourceStories).any
        (fun s => !(resolveStoryMode s.settings tenant == GQLSTORY_MODE.COMMENTS))) = false) :
    ∃ store', merge tenant store destinationID sourceIDs =
      Except.ok
        (some { destStory with
            commentCounts :=
              { status :=
                  mergeCommentStatusCount (sourceStories.map (fun s => s.commentCounts.status))
                moderationQueue :=
                  mergeCommentModerationQueueCount
                    (sourceStories.map (fun s => s.commentCounts.moderationQueue))
                action :=
                  mergeCommentActionCounts
                    (sourceStories.map (fun s => s.commentCounts.action)) } },
          store') := by
  have h' : sequenceOptions
      (retrieveStory store destinationID :: sourceIDs.map (retrieveStory store)) =
      some (destStory :: sourceStories) := by
    simpa [retrieveManyStories] using hfetch
  have hd : retrieveStory store destinationID = some destStory := by
    cases hx : retrieveStory store destinationID with
    | none =>
      rw [hx] at h'
      exact absurd h' (by simp [sequenceOptions])
    | some a =>
      rw [hx] at h'
      have h2 : (sequenceOptions (sourceIDs.map (retrieveStory store))).map
          (fun l => a :: l) = some (destStory :: sourceStories) := h'
      obtain ⟨l, _, hcons⟩ := Option.map_eq_some'.mp h2
      have ha : a = destStory := (List.cons.injEq _ _ _ _ ▸ hcons).1
      rw [ha]
  have hlen0 : ¬ sourceIDs.length = 0 := fun h0 => hne (List.length_eq_zero.mp h0)
  have hdedup :
      ¬ (destinationID :: sourceIDs).dedup.length ≠ (destinationID :: sourceIDs).length := by
    rw [List.dedup_eq_self.mpr hnodup]
    exact fun hh => hh rfl
  have hmode' : ¬ ((destStory :: sourceStories).any
      (fun s => !(resolveStoryMode s.settings tenant == GQLSTORY_MODE.COMMENTS))) = true := by
    simp [hmode]
  simp only [merge]
  rw [if_neg hlen0, if_neg hdedup]
  simp only [hfetch]
  rw [if_neg hsite, if_neg hmode']
  simp only [List.tail_cons, updateStoryCounts, retrieveStory_after_reassign, hd]
  exact ⟨_, rfl⟩

/-- Witness for C1, the spec's merge scenario: destination `d` holds two
approved comments of its own, sources `s1` and `s2` hold three and one; the
merged destination carries exactly the sources' aggregate, whose approved
count is 4 — `d`'s own 2 is discarded. -/
theorem merge_replaces_destination_counts_witness :
    (["s1", "s2"] : List String) ≠ [] ∧
      (["d", "s1", "s2"] : List String).Nodup ∧
      sequenceOptions (retrieveManyStories storeMerge ["d", "s1", "s2"]) =
        some [storyD, storyS1, storyS2] ∧
      ¬ 1 < (([storyD, storyS1, storyS2] : List Story).map (fun s => s.siteID)).dedup.length ∧
      (([storyD, storyS1, storyS2] : List Story).any
          (fun s => !(resolveStoryMode s.settings tenant₀ == GQLSTORY_MODE.COMMENTS))) = false ∧
      (∃ store', merge tenant₀ storeMerge "d" ["s1", "s2"] =
        Except.ok
          (some { storyD with
              commentCounts :=
                { status :=
                    mergeCommentStatusCount
                      (([storyS1, storyS2] : List Story).map (fun s => s.commentCounts.status))
                  moderationQueue :=
                    mergeCommentModerationQueueCount
                      (([storyS1, storyS2] : List Story).map
                        (fun s => s.commentCounts.moderationQueue))
                  action :=
                    mergeCommentActionCounts
                      (([storyS1, storyS2] : List Story).map
                        (fun s => s.commentCounts.action)) } },
            store')) ∧
      (mergeCommentStatusCount
        (([storyS1, storyS2] : List Story).map (fun s => s.commentCounts.status))).APPROVED = 4 :=
  ⟨by decide, by decide, rfl, by decide, by decide,
    merge_replaces_destination_counts tenant₀ storeMerge "d" ["s1", "s2"] storyD
      [storyS1, storyS2] (by decide) (by decide) rfl (by decide) (by decide),
    by decide⟩

end Talk
